import Mathlib

/-!
Verification of the moodi-fi backend's token lifecycle, summary caching and
startup validation, as a shallow embedding of the Express server
(backend/server.js together with the models in backend/models/).

Time is modelled in milliseconds since the epoch as a natural number.
External effects (the Spotify token endpoint, the Spotify Web API and the
generative-AI endpoint) are modelled by passing their outcome as an explicit
parameter; the MongoDB collections are modelled as lists inside a
ServerState record.
-/

namespace MoodiFi

/-- A User document (backend/models/User.js): Spotify account id, the
upstream access/refresh token pair, the upstream token's expiry, and cached
profile fields.  `id` models the MongoDB `_id`.  `accessToken` and
`tokenExpiration` are optional because a failed refresh nulls them. -/
structure User where
  id : Nat
  spotifyId : String
  accessToken : Option String
  refreshToken : Option String
  tokenExpiration : Option Nat
  email : Option String
  displayName : Option String
deriving Repr, DecidableEq

/-- Payload of the session JWT issued on the OAuth callback: exactly the
user's internal database identifier and a unique token identifier. -/
structure JwtPayload where
  userId : Nat
  jti : String
deriving Repr, DecidableEq

/-- A signed session token.  `secret` records which secret the token was
signed with (signature validity is modelled as equality of secrets),
`iat` the issue time in ms, and `lifetimeMs` the signed-in expiry window. -/
structure SessionToken where
  payload : JwtPayload
  secret : String
  iat : Nat
  lifetimeMs : Nat
deriving Repr, DecidableEq

/-- A BlacklistedToken document (backend/models/BlacklistedToken.js):
a revoked jti together with its `createdAt` timestamp. -/
structure BlacklistEntry where
  jti : String
  createdAt : Nat
deriving Repr, DecidableEq

/-- A Summary document (backend/models/Summary.js): the cached AI summary
text keyed by user id. -/
structure SummaryRec where
  userId : Nat
  summaryText : String
  createdAt : Nat
deriving Repr, DecidableEq

/-- The MongoDB collections the server reads and writes. -/
structure ServerState where
  users : List User
  blacklist : List BlacklistEntry
  summaries : List SummaryRec
deriving Repr, DecidableEq

/-- Session JWT lifetime: jwt.sign(..., expiresIn 24h) in server.js. -/
def jwtLifetimeMs : Nat := 24 * 60 * 60 * 1000

/-- Blacklist retention: the schema field createdAt has expires 7d
(BlacklistedToken.js line 14), so entries auto-delete 7 days after
creation. -/
def blacklistTTLms : Nat := 7 * 24 * 60 * 60 * 1000

/-- Five minutes in milliseconds: the look-ahead window behind the
specification's notion of an upstream token nearing expiry (it appears in
the earlier middleware at part_005 line 249; the current middleware
performs no refresh at all). -/
def fiveMinutesMs : Nat := 5 * 60 * 1000

/-- User.findById. -/
def findUserById (st : ServerState) (uid : Nat) : Option User :=
  st.users.find? (fun u => u.id == uid)

/-- BlacklistedToken.findOne on jti, reduced to membership. -/
def isBlacklisted (st : ServerState) (j : String) : Bool :=
  st.blacklist.any (fun e => e.jti == j)

/-- Summary.findOne on userId. -/
def findSummary (st : ServerState) (uid : Nat) : Option SummaryRec :=
  st.summaries.find? (fun s => s.userId == uid)

/-- user.save(): replace the stored user document with the same `_id`. -/
def saveUser (st : ServerState) (u : User) : ServerState :=
  { st with users := st.users.map (fun v => if v.id == u.id then u else v) }

/-- jwt.verify: succeeds exactly when the token was signed with the given
secret and its expiry has not passed, returning the decoded payload;
on an invalid signature or an expired token it throws (modelled none). -/
def jwtVerify (tok : SessionToken) (secret : String) (now : Nat) :
    Option JwtPayload :=
  if tok.secret == secret && decide (now < tok.iat + tok.lifetimeMs) then
    some tok.payload
  else
    none

/-- jwt.sign. -/
def jwtSign (payload : JwtPayload) (secret : String) (now : Nat) :
    SessionToken :=
  { payload := payload, secret := secret, iat := now,
    lifetimeMs := jwtLifetimeMs }

/-- Outcome of a middleware or handler: either the request proceeds with
req.user set (next() is called), or it is rejected with an HTTP status and
an error message. -/
inductive AuthResult where
  | ok (user : User)
  | reject (status : Nat) (error : String)
deriving Repr, DecidableEq

/-- The ensureValidSpotifyToken middleware of the current server
(server.js lines 251-279): parse the bearer header, jwt.verify the token
(an exception is caught and answered 401), reject a blacklisted jti with
401, reject an unknown user with 401, otherwise set req.user and call
next().  The authorization header is modelled as an optional SessionToken;
none covers both a missing header and one without the Bearer prefix. -/
def ensureValidSpotifyToken (secret : String) (st : ServerState) (now : Nat)
    (auth : Option SessionToken) : AuthResult :=
  match auth with
  | none => .reject 401 "No authorization token provided"
  | some tok =>
    match jwtVerify tok secret now with
    | none => .reject 401 "Authentication failed"
    | some payload =>
      if isBlacklisted st payload.jti then
        .reject 401 "Token has been revoked"
      else
        match findUserById st payload.userId with
        | none => .reject 401 "User not found"
        | some user => .ok user

/-- True when the result is a rejection with HTTP status 401. -/
def is401 (r : AuthResult) : Bool :=
  match r with
  | .reject 401 _ => true
  | _ => false

/-- Outcome of the POST to the Spotify token endpoint made by
refreshSpotifyToken: a 2xx answer carrying access_token (and possibly
expires_in, in seconds), a 2xx answer without access_token, or a thrown
request error (timeout, network, non-2xx). -/
inductive SpotifyRefreshResponse where
  | success (accessToken : String) (expiresIn : Option Nat)
  | noAccessToken
  | requestError
deriving Repr, DecidableEq

instance {ε α : Type} [DecidableEq ε] [DecidableEq α] :
    DecidableEq (Except ε α) := fun a b =>
  match a, b with
  | .ok x, .ok y =>
    if h : x = y then isTrue (by rw [h]) else
      isFalse (by intro hc; cases hc; exact h rfl)
  | .error x, .error y =>
    if h : x = y then isTrue (by rw [h]) else
      isFalse (by intro hc; cases hc; exact h rfl)
  | .ok _, .error _ => isFalse (by intro hc; cases hc)
  | .error _, .ok _ => isFalse (by intro hc; cases hc)

/-- What a call to refreshSpotifyToken produces: the returned value or the
thrown error, the user document as the call leaves it, whether user.save()
ran, and whether the Spotify token endpoint was contacted. -/
structure RefreshResult where
  result : Except String (Option String)
  user : User
  saved : Bool
  networkCalled : Bool
deriving Repr, DecidableEq

/-- The guard at server.js line 195:
user.tokenExpiration && user.tokenExpiration > new Date(). -/
def tokenStillValid (user : User) (now : Nat) : Bool :=
  match user.tokenExpiration with
  | some e => decide (now < e)
  | none => false

/-- The JS default at server.js line 221: response.data.expires_in ||
3600 falls back to 3600 when expires_in is absent or zero, both being
falsy. -/
def jsExpiresIn (expIn : Option Nat) : Nat :=
  match expIn with
  | none => 3600
  | some n => if n = 0 then 3600 else n

/-- refreshSpotifyToken (server.js lines 193-248).  If the stored
expiration is strictly in the future the stored access token is returned
unchanged.  Otherwise the token endpoint is called: on access_token the
user's accessToken and tokenExpiration (now + expires_in seconds, with
3600 substituted when expires_in is absent or zero) are saved and the new
token returned; a response without access_token throws inside the try, so
it falls to the same catch as a request error, which nulls accessToken
and tokenExpiration, saves, and rethrows Failed to refresh token. -/
def refreshSpotifyToken (user : User) (now : Nat)
    (resp : SpotifyRefreshResponse) : RefreshResult :=
  if tokenStillValid user now then
    { result := .ok user.accessToken, user := user,
      saved := false, networkCalled := false }
  else
    match resp with
    | .success tok expIn =>
      let expiresInSeconds := jsExpiresIn expIn
      let u := { user with
                 accessToken := some tok,
                 tokenExpiration := some (now + expiresInSeconds * 1000) }
      { result := .ok (some tok), user := u,
        saved := true, networkCalled := true }
    | .noAccessToken =>
      let u := { user with accessToken := none, tokenExpiration := none }
      { result := .error "Failed to refresh token", user := u,
        saved := true, networkCalled := true }
    | .requestError =>
      let u := { user with accessToken := none, tokenExpiration := none }
      { result := .error "Failed to refresh token", user := u,
        saved := true, networkCalled := true }

/-- GET /auth/spotify/callback success handler (server.js lines 294-307):
sign a JWT whose payload is exactly the user's _id and a fresh uuid jti,
with expiresIn 24h, and redirect to FRONTEND_URL carrying the token in the
URL fragment.  The fresh uuid is passed in as freshJti; the result is the
issued token paired with the redirect target. -/
def spotifyCallback (secret frontendUrl : String) (userId : Nat)
    (freshJti : String) (now : Nat) : SessionToken × String :=
  let payload : JwtPayload := { userId := userId, jti := freshJti }
  (jwtSign payload secret now, frontendUrl)

/-- An HTTP response reduced to status and body text. -/
structure HttpReply where
  status : Nat
  body : String
deriving Repr, DecidableEq

/-- Result of POST /api/logout: the reply and the state it leaves. -/
structure LogoutResult where
  reply : HttpReply
  st : ServerState
deriving Repr, DecidableEq

/-- POST /api/logout (server.js lines 419-437): a missing bearer header is
400; jwt.verify runs in the try, so a bad token throws to the catch and is
answered 500; otherwise a BlacklistedToken document with the decoded jti
is saved.  The collection has a unique index on jti, so saving a duplicate
jti throws, landing in the same catch (500) with the collection unchanged;
a fresh jti is inserted with createdAt = now and answered 200. -/
def logoutHandler (secret : String) (st : ServerState) (now : Nat)
    (auth : Option SessionToken) : LogoutResult :=
  match auth with
  | none => { reply := ⟨400, "No authorization token provided"⟩, st := st }
  | some tok =>
    match jwtVerify tok secret now with
    | none => { reply := ⟨500, "Failed to log out"⟩, st := st }
    | some payload =>
      if isBlacklisted st payload.jti then
        { reply := ⟨500, "Failed to log out"⟩, st := st }
      else
        { reply := ⟨200, "Logged out successfully."⟩,
          st := { st with
                  blacklist := ⟨payload.jti, now⟩ :: st.blacklist } }

/-- The MongoDB TTL monitor for the blacklist (expires 7d on createdAt):
an entry is removed once now reaches createdAt + blacklistTTLms. -/
def purgeExpired (st : ServerState) (now : Nat) : ServerState :=
  { st with
    blacklist := st.blacklist.filter
      (fun e => decide (now < e.createdAt + blacklistTTLms)) }

/-- Outcome of the GET to the Spotify top-tracks endpoint. -/
inductive SpotifyApiOutcome where
  | ok (data : String)
  | upstream401
  | otherError
deriving Repr, DecidableEq

/-- POST /api/listening-data handler body (server.js lines 310-330), run
after ensureValidSpotifyToken has set req.user: a missing req.user access
token is answered 401; otherwise the Spotify call's outcome is mapped to
200 with the data, 401 on an upstream 401, and 500 otherwise. -/
def listeningDataHandler (user : User) (spotify : SpotifyApiOutcome) :
    HttpReply :=
  match user.accessToken with
  | none => ⟨401, "User not authenticated or access token missing"⟩
  | some _ =>
    match spotify with
    | .ok d => ⟨200, d⟩
    | .upstream401 => ⟨401, "Spotify token expired"⟩
    | .otherError => ⟨500, "Failed to fetch listening data"⟩

/-- What the summary endpoint produces: the reply, the state it leaves,
and whether model.generateContent was invoked. -/
structure SummaryResult where
  reply : HttpReply
  st : ServerState
  aiCalled : Bool
deriving Repr, DecidableEq

/-- POST /api/gemini-2.0-flash-exp handler body (server.js lines 333-365),
run after ensureValidSpotifyToken has set req.user: missing listeningData
is 400; an existing Summary document for req.user._id is returned as-is
without invoking the model; otherwise model.generateContent is invoked and
on success a new Summary document is saved and its text returned, while a
throw is answered 500. -/
def summaryHandler (st : ServerState) (user : User)
    (listeningData : Option String) (now : Nat)
    (gen : Except String String) : SummaryResult :=
  match listeningData with
  | none => { reply := ⟨400, "No listening data provided"⟩, st := st,
              aiCalled := false }
  | some _ =>
    match findSummary st user.id with
    | some s => { reply := ⟨200, s.summaryText⟩, st := st,
                  aiCalled := false }
    | none =>
      match gen with
      | .ok text =>
        { reply := ⟨200, text⟩,
          st := { st with
                  summaries := ⟨user.id, text, now⟩ :: st.summaries },
          aiCalled := true }
      | .error _ =>
        { reply := ⟨500, "Failed to generate summary"⟩, st := st,
          aiCalled := true }

/-- The environment variables required at startup
(server.js lines 46-55). -/
def requiredEnvVars : List String :=
  ["SPOTIFY_CLIENT_ID", "SPOTIFY_CLIENT_SECRET", "SPOTIFY_CALLBACK_URL",
   "GOOGLE_API_KEY", "MONGODB_URI", "SESSION_SECRET", "NODE_ENV",
   "JWT_SECRET"]

/-- The startup check's view of process.env, as an association list. -/
def envLookup (env : List (String × String)) (v : String) :
    Option String :=
  (env.find? (fun p => p.1 == v)).map (fun p => p.2)

/-- The JS truthiness test at line 57: !process.env[varName] holds when
the variable is absent or set to the empty string. -/
def envMissing (env : List (String × String)) (v : String) : Bool :=
  match envLookup env v with
  | none => true
  | some s => s.isEmpty

/-- How the process leaves its startup sequence. -/
inductive StartupResult where
  | exited (code : Nat)
  | listening
deriving Repr, DecidableEq

/-- The startup validation (server.js lines 56-61): process.exit(1) fires
during module evaluation, before app.listen at line 463, as soon as any
required variable is falsy; only when all are present does the server
reach the listening state. -/
def startup (env : List (String × String)) : StartupResult :=
  if requiredEnvVars.any (envMissing env) then .exited 1 else .listening

/-! Concrete sample data used by the witnesses and counterexamples. -/

/-- A sample signing secret. -/
def secretEx : String := "jwt-secret"

/-- A sample user with a far-future upstream token expiration. -/
def userEx : User :=
  ⟨1, "alice", some "acc-1", some "ref-1", some 999999999999, none,
   some "Alice"⟩

/-- A session token for userEx signed with secretEx at time 0. -/
def tokEx : SessionToken := ⟨⟨1, "jti-1"⟩, secretEx, 0, jwtLifetimeMs⟩

/-- A state holding only userEx, with empty blacklist and no summaries. -/
def stEx : ServerState := ⟨[userEx], [], []⟩

/-- stEx after the jti of tokEx has been revoked at time 100. -/
def stRevokedEx : ServerState := ⟨[userEx], [⟨"jti-1", 100⟩], []⟩

/-- A user whose upstream token expired at time 500. -/
def userStaleEx : User :=
  ⟨2, "bob", some "acc-2", some "ref-2", some 500, none, none⟩

/-- A session token for userStaleEx. -/
def tokStaleEx : SessionToken := ⟨⟨2, "jti-2"⟩, secretEx, 0, jwtLifetimeMs⟩

/-- A state holding only userStaleEx. -/
def stStaleEx : ServerState := ⟨[userStaleEx], [], []⟩

/-- A user whose upstream token expires at time 61000: at now = 1000 it is
still valid but within the 5-minute refresh look-ahead. -/
def userNearEx : User :=
  ⟨3, "carol", some "acc-3", some "ref-3", some 61000, none, none⟩

/-- A session token for userNearEx. -/
def tokNearEx : SessionToken := ⟨⟨3, "jti-3"⟩, secretEx, 0, jwtLifetimeMs⟩

/-- A state holding only userNearEx. -/
def stNearEx : ServerState := ⟨[userNearEx], [], []⟩

/-- stEx with a cached summary for userEx. -/
def stSummaryEx : ServerState := ⟨[userEx], [], [⟨1, "cached text", 0⟩]⟩

/-- An environment with every required variable except JWT_SECRET. -/
def envEx : List (String × String) :=
  [("SPOTIFY_CLIENT_ID", "id"), ("SPOTIFY_CLIENT_SECRET", "sec"),
   ("SPOTIFY_CALLBACK_URL", "cb"), ("GOOGLE_API_KEY", "k"),
   ("MONGODB_URI", "uri"), ("SESSION_SECRET", "ss"),
   ("NODE_ENV", "production")]

/-! Theorems settling the claims. -/

/-- Claim C1: the ensureValidSpotifyToken middleware accepts a request
(returns ok with the user, i.e. calls next with req.user set) when the
bearer token's signature verifies under the JWT secret, the token is
unexpired, its jti is not blacklisted and the referenced user exists; and
it rejects with HTTP 401 whenever the signature is invalid, the token is
expired, or the jti is blacklisted. -/
theorem C1_middleware_accepts_and_rejects
    (secret : String) (st : ServerState) (now : Nat) (tok : SessionToken)
    (user : User) :
    (tok.secret = secret → now < tok.iat + tok.lifetimeMs →
      isBlacklisted st tok.payload.jti = false →
      findUserById st tok.payload.userId = some user →
      ensureValidSpotifyToken secret st now (some tok) = .ok user)
    ∧
    (tok.secret ≠ secret ∨ tok.iat + tok.lifetimeMs ≤ now ∨
        isBlacklisted st tok.payload.jti = true →
      is401 (ensureValidSpotifyToken secret st now (some tok)) = true) := by
  constructor
  · intro h1 h2 h3 h4
    simp [ensureValidSpotifyToken, jwtVerify, h1, h2, h3, h4]
  · intro h
    rcases h with h | h | h
    · have hb : (tok.secret == secret) = false := beq_eq_false_iff_ne.mpr h
      simp [ensureValidSpotifyToken, jwtVerify, hb, is401]
    · have hlt : ¬ (now < tok.iat + tok.lifetimeMs) := Nat.not_lt.mpr h
      simp [ensureValidSpotifyToken, jwtVerify, hlt, is401]
    · by_cases hc :
        (tok.secret == secret &&
          decide (now < tok.iat + tok.lifetimeMs)) = true
      · simp [ensureValidSpotifyToken, jwtVerify, hc, h, is401]
      · simp [ensureValidSpotifyToken, jwtVerify, hc, is401]

/-- Witness for C1: both directions at concrete inputs. -/
theorem C1_witness :
    ensureValidSpotifyToken secretEx stEx 5 (some tokEx) = .ok userEx ∧
    is401 (ensureValidSpotifyToken secretEx stRevokedEx 5 (some tokEx)) =
      true :=
  ⟨(C1_middleware_accepts_and_rejects secretEx stEx 5 tokEx userEx).1
      rfl (by decide) (by decide) (by decide),
   (C1_middleware_accepts_and_rejects secretEx stRevokedEx 5 tokEx
      userEx).2 (Or.inr (Or.inr (by decide)))⟩

/-- Claim C2: while a blacklist entry for a jti exists, every protected
request presenting a token with that jti is rejected with HTTP 401; the
TTL monitor never removes an entry before its retention window elapses,
and the retention window covers the token's whole 24-hour lifetime. -/
theorem C2_revoked_jti_rejected_while_listed
    (secret : String) (st : ServerState) (now : Nat) (tok : SessionToken)
    (e : BlacklistEntry) :
    (isBlacklisted st tok.payload.jti = true →
      is401 (ensureValidSpotifyToken secret st now (some tok)) = true)
    ∧
    (e ∈ st.blacklist → now < e.createdAt + blacklistTTLms →
      e ∈ (purgeExpired st now).blacklist)
    ∧ jwtLifetimeMs ≤ blacklistTTLms := by
  refine ⟨?_, ?_, by decide⟩
  · intro h
    by_cases hc :
      (tok.secret == secret &&
        decide (now < tok.iat + tok.lifetimeMs)) = true
    · simp [ensureValidSpotifyToken, jwtVerify, hc, h, is401]
    · simp [ensureValidSpotifyToken, jwtVerify, hc, is401]
  · intro h1 h2
    simp [purgeExpired, List.mem_filter, h1, h2]

/-- Witness for C2: a revoked token is rejected and its entry survives a
purge run inside the retention window. -/
theorem C2_witness :
    is401 (ensureValidSpotifyToken secretEx stRevokedEx 5 (some tokEx)) =
      true ∧
    (⟨"jti-1", 100⟩ : BlacklistEntry) ∈
      (purgeExpired stRevokedEx 5000).blacklist :=
  ⟨(C2_revoked_jti_rejected_while_listed secretEx stRevokedEx 5 tokEx
      ⟨"jti-1", 100⟩).1 (by decide),
   (C2_revoked_jti_rejected_while_listed secretEx stRevokedEx 5000 tokEx
      ⟨"jti-1", 100⟩).2.1 (by decide) (by decide)⟩

/-- Counterexample to claim C3: the blacklist retention window is not the
session token's 24-hour maximum lifetime.  A jti revoked by logout at time
0 is still in the revocation list when the TTL monitor runs a full token
lifetime (24 hours) later, because the schema's window is 7 days. -/
theorem C3_counterexample :
    (logoutHandler secretEx stEx 0 (some tokEx)).reply.status = 200 ∧
    (⟨"jti-1", 0⟩ : BlacklistEntry) ∈
      (purgeExpired (logoutHandler secretEx stEx 0 (some tokEx)).st
        jwtLifetimeMs).blacklist ∧
    blacklistTTLms ≠ jwtLifetimeMs := by
  refine ⟨rfl, ?_, by decide⟩
  decide

/-- Claim C3 (amended): on POST /api/logout with a verifiable token whose
jti is not yet blacklisted, the jti is inserted into the revocation list
with a fixed retention window of 7 days - at least the session token's
24-hour maximum lifetime - after which the entry is deleted. -/
theorem C3_amended_logout_inserts_with_7day_window
    (secret : String) (st : ServerState) (now : Nat) (tok : SessionToken)
    (p : JwtPayload)
    (hv : jwtVerify tok secret now = some p)
    (hb : isBlacklisted st p.jti = false) :
    (logoutHandler secret st now (some tok)).reply =
      ⟨200, "Logged out successfully."⟩ ∧
    (⟨p.jti, now⟩ : BlacklistEntry) ∈
      (logoutHandler secret st now (some tok)).st.blacklist ∧
    (∀ later : Nat, later < now + blacklistTTLms →
      (⟨p.jti, now⟩ : BlacklistEntry) ∈
        (purgeExpired (logoutHandler secret st now (some tok)).st
          later).blacklist) ∧
    (∀ later : Nat, now + blacklistTTLms ≤ later →
      (⟨p.jti, now⟩ : BlacklistEntry) ∉
        (purgeExpired (logoutHandler secret st now (some tok)).st
          later).blacklist) ∧
    jwtLifetimeMs ≤ blacklistTTLms := by
  refine ⟨?_, ?_, ?_, ?_, by decide⟩
  · simp [logoutHandler, hv, hb]
  · simp [logoutHandler, hv, hb]
  · intro later hl
    simp [logoutHandler, hv, hb, purgeExpired, List.mem_filter, hl]
  · intro later hl
    have : ¬ (later < now + blacklistTTLms) := Nat.not_lt.mpr hl
    simp [logoutHandler, hv, hb, purgeExpired, List.mem_filter, this]

/-- Witness for C3 (amended): a concrete logout at time 0, with the entry
present at 24 hours and gone at 7 days. -/
theorem C3_amended_witness :
    (logoutHandler secretEx stEx 0 (some tokEx)).reply =
      ⟨200, "Logged out successfully."⟩ ∧
    (⟨"jti-1", 0⟩ : BlacklistEntry) ∈
      (purgeExpired (logoutHandler secretEx stEx 0 (some tokEx)).st
        jwtLifetimeMs).blacklist ∧
    (⟨"jti-1", 0⟩ : BlacklistEntry) ∉
      (purgeExpired (logoutHandler secretEx stEx 0 (some tokEx)).st
        blacklistTTLms).blacklist := by
  have h := C3_amended_logout_inserts_with_7day_window secretEx stEx 0
    tokEx ⟨1, "jti-1"⟩ (by decide) (by decide)
  exact ⟨h.1, h.2.2.1 jwtLifetimeMs (by decide),
         h.2.2.2.1 blacklistTTLms (by decide)⟩

/-- Claim C4: the OAuth callback issues a JWT signed with the JWT secret
whose payload is exactly the user's internal identifier and the freshly
generated jti, valid for 24 hours, and redirects to the frontend with that
token: the issued token verifies under the secret strictly before
24 hours have passed and fails to verify afterwards. -/
theorem C4_callback_issues_24h_token
    (secret frontendUrl : String) (userId : Nat) (freshJti : String)
    (now : Nat) :
    (spotifyCallback secret frontendUrl userId freshJti now).1 =
      ⟨⟨userId, freshJti⟩, secret, now, 24 * 60 * 60 * 1000⟩ ∧
    (spotifyCallback secret frontendUrl userId freshJti now).2 =
      frontendUrl ∧
    (∀ t : Nat, t < now + jwtLifetimeMs →
      jwtVerify (spotifyCallback secret frontendUrl userId freshJti now).1
        secret t = some ⟨userId, freshJti⟩) ∧
    (∀ t : Nat, now + jwtLifetimeMs ≤ t →
      jwtVerify (spotifyCallback secret frontendUrl userId freshJti now).1
        secret t = none) := by
  refine ⟨rfl, rfl, ?_, ?_⟩
  · intro t ht
    simp [spotifyCallback, jwtSign, jwtVerify, jwtLifetimeMs] at ht ⊢
    exact ht
  · intro t ht
    have : ¬ (t < now + jwtLifetimeMs) := Nat.not_lt.mpr ht
    simp [spotifyCallback, jwtSign, jwtVerify, jwtLifetimeMs] at this ⊢
    exact this

/-- Witness for C4: the token issued at time 0 verifies just before the
24-hour mark and is refused at it. -/
theorem C4_witness :
    jwtVerify (spotifyCallback secretEx "front" 1 "jti-1" 0).1 secretEx
      86399999 = some ⟨1, "jti-1"⟩ ∧
    jwtVerify (spotifyCallback secretEx "front" 1 "jti-1" 0).1 secretEx
      86400000 = none :=
  ⟨(C4_callback_issues_24h_token secretEx "front" 1 "jti-1" 0).2.2.1
      86399999 (by decide),
   (C4_callback_issues_24h_token secretEx "front" 1 "jti-1" 0).2.2.2
      86400000 (by decide)⟩

/-- Counterexample to claim C5: in the current server a protected request
never triggers an upstream refresh.  userNearEx's stored token is nearing
expiry at now = 1000 (it expires at 61000, within the five-minute window),
yet the middleware accepts the request with the stored user document
untouched - the stale access token acc-3 and the old expiration pass
through unchanged and nothing is persisted; and even a direct call of
refreshSpotifyToken at this input is stopped by its own still-valid guard,
returning the old token without contacting Spotify, although the token
endpoint would have answered with a fresh one. -/
theorem C5_counterexample :
    userNearEx.tokenExpiration = some 61000 ∧
    (1000 : Nat) < 61000 ∧ (61000 : Nat) < 1000 + fiveMinutesMs ∧
    ensureValidSpotifyToken secretEx stNearEx 1000 (some tokNearEx) =
      .ok userNearEx ∧
    userNearEx.accessToken = some "acc-3" ∧
    refreshSpotifyToken userNearEx 1000 (.success "newTok" (some 3600)) =
      { result := .ok (some "acc-3"), user := userNearEx,
        saved := false, networkCalled := false } := by
  refine ⟨rfl, by decide, by decide, ?_, rfl, by decide⟩
  decide

/-- Claim C5 (amended): protected requests do not trigger an upstream
token refresh - the middleware of the current server passes the stored
user record through unchanged whenever it accepts, even when the stored
access token is expired or lacks an expiration.  The refreshSpotifyToken
helper, which the current request path never invokes, does obtain and
persist the new access token and its new expiration (now + expires_in
seconds, with 3600 substituted for an absent or zero expires_in) when
called for such a user and the token endpoint answers successfully. -/
theorem C5_amended_request_path_performs_no_refresh
    (secret : String) (st : ServerState) (now : Nat) (tok : SessionToken)
    (user : User) (newTok : String) (expIn : Option Nat)
    (hsec : tok.secret = secret)
    (hnexp : now < tok.iat + tok.lifetimeMs)
    (hb : isBlacklisted st tok.payload.jti = false)
    (hu : findUserById st tok.payload.userId = some user)
    (hstale : tokenStillValid user now = false) :
    ensureValidSpotifyToken secret st now (some tok) = .ok user ∧
    refreshSpotifyToken user now (.success newTok expIn) =
      { result := .ok (some newTok),
        user := { user with
                   accessToken := some newTok,
                   tokenExpiration :=
                     some (now + jsExpiresIn expIn * 1000) },
        saved := true, networkCalled := true } := by
  constructor
  · simp [ensureValidSpotifyToken, jwtVerify, hsec, hnexp, hb, hu]
  · simp [refreshSpotifyToken, hstale]

/-- Witness for C5 (amended): userStaleEx's token expired at 500; at
now = 1000 the middleware passes the stale record through unchanged,
while a direct refresh call would persist the fresh token. -/
theorem C5_amended_witness :
    ensureValidSpotifyToken secretEx stStaleEx 1000 (some tokStaleEx) =
      .ok userStaleEx ∧
    refreshSpotifyToken userStaleEx 1000 (.success "fresh" (some 60)) =
      { result := .ok (some "fresh"),
        user := { userStaleEx with
                   accessToken := some "fresh",
                   tokenExpiration := some 61000 },
        saved := true, networkCalled := true } := by
  have h := C5_amended_request_path_performs_no_refresh secretEx
    stStaleEx 1000 tokStaleEx userStaleEx "fresh" (some 60) rfl
    (by decide) (by decide) (by decide) (by decide)
  simpa using h

/-- Claim C6: whenever a refresh of the upstream token fails (either a
thrown request error or a 2xx answer without access_token), the user
record is kept with all identity fields intact but its accessToken and
tokenExpiration are nulled and saved, and the listening-data endpoint then
answers 401 for that user whatever Spotify would have returned. -/
theorem C6_refresh_failure_nulls_tokens_then_401
    (user : User) (now : Nat) (resp : SpotifyRefreshResponse)
    (hstale : tokenStillValid user now = false)
    (hfail : resp = SpotifyRefreshResponse.noAccessToken ∨
             resp = SpotifyRefreshResponse.requestError) :
    (refreshSpotifyToken user now resp).result =
      .error "Failed to refresh token" ∧
    (refreshSpotifyToken user now resp).user =
      { user with accessToken := none, tokenExpiration := none } ∧
    (refreshSpotifyToken user now resp).saved = true ∧
    (∀ o : SpotifyApiOutcome,
      listeningDataHandler (refreshSpotifyToken user now resp).user o =
        ⟨401, "User not authenticated or access token missing"⟩) := by
  rcases hfail with h | h <;> subst h <;>
    refine ⟨?_, ?_, ?_, ?_⟩ <;>
    simp [refreshSpotifyToken, hstale, listeningDataHandler]

/-- Witness for C6: a failed refresh for userStaleEx at time 1000. -/
theorem C6_witness :
    (refreshSpotifyToken userStaleEx 1000 .requestError).user =
      { userStaleEx with accessToken := none, tokenExpiration := none } ∧
    listeningDataHandler
      (refreshSpotifyToken userStaleEx 1000 .requestError).user
      (.ok "data") =
      ⟨401, "User not authenticated or access token missing"⟩ := by
  have h := C6_refresh_failure_nulls_tokens_then_401 userStaleEx 1000
    .requestError (by decide) (Or.inr rfl)
  exact ⟨h.2.1, h.2.2.2 (.ok "data")⟩

/-- Claim C7: the summary endpoint is idempotent per user after the first
success.  If a Summary document exists for the user it is returned
unchanged with no model invocation and no state change, whatever the
request body or the model would answer; if none exists, a successful first
request stores the generated text, and every subsequent request returns
exactly that text with no further model invocation and no state change. -/
theorem C7_summary_generated_at_most_once
    (st : ServerState) (user : User) (d : String) (now : Nat)
    (text : String) (s : SummaryRec) :
    (findSummary st user.id = some s →
      ∀ g : Except String String,
        summaryHandler st user (some d) now g =
          ⟨⟨200, s.summaryText⟩, st, false⟩) ∧
    (findSummary st user.id = none →
      summaryHandler st user (some d) now (.ok text) =
        ⟨⟨200, text⟩,
         { st with summaries := ⟨user.id, text, now⟩ :: st.summaries },
         true⟩ ∧
      ∀ (d2 : String) (now2 : Nat) (g2 : Except String String),
        summaryHandler
            { st with summaries := ⟨user.id, text, now⟩ :: st.summaries }
            user (some d2) now2 g2 =
          ⟨⟨200, text⟩,
           { st with summaries := ⟨user.id, text, now⟩ :: st.summaries },
           false⟩) := by
  constructor
  · intro h g
    simp [summaryHandler, h]
  · intro h
    constructor
    · simp [summaryHandler, h]
    · intro d2 now2 g2
      simp [summaryHandler, findSummary]

/-- Witness for C7: the cached summary in stSummaryEx is returned as-is
even when the model would fail, and a first generation on stEx is stored
and then replayed from the cache. -/
theorem C7_witness :
    summaryHandler stSummaryEx userEx (some "data") 5 (.error "down") =
      ⟨⟨200, "cached text"⟩, stSummaryEx, false⟩ ∧
    summaryHandler
        { stEx with summaries := ⟨1, "new text", 5⟩ :: stEx.summaries }
        userEx (some "other") 9 (.error "down") =
      ⟨⟨200, "new text"⟩,
       { stEx with summaries := ⟨1, "new text", 5⟩ :: stEx.summaries },
       false⟩ := by
  have h1 := (C7_summary_generated_at_most_once stSummaryEx userEx "data"
    5 "ignored" ⟨1, "cached text", 0⟩).1 (by decide) (.error "down")
  have h2 := ((C7_summary_generated_at_most_once stEx userEx "data" 5
    "new text" ⟨1, "cached text", 0⟩).2 (by decide)).2 "other" 9
    (.error "down")
  exact ⟨h1, h2⟩

/-- Claim C8: if any required environment variable is absent the startup
validation exits the process with status 1 (nonzero), and the server never
reaches the listening state. -/
theorem C8_missing_required_env_is_fatal
    (env : List (String × String)) (v : String)
    (hreq : v ∈ requiredEnvVars)
    (habs : envLookup env v = none) :
    startup env = .exited 1 ∧ (1 : Nat) ≠ 0 ∧
    startup env ≠ .listening := by
  have hm : envMissing env v = true := by simp [envMissing, habs]
  have hany : requiredEnvVars.any (envMissing env) = true :=
    List.any_eq_true.mpr ⟨v, hreq, hm⟩
  refine ⟨by simp [startup, hany], by decide, by simp [startup, hany]⟩

/-- Witness for C8: envEx lacks JWT_SECRET, so startup exits with 1. -/
theorem C8_witness : startup envEx = .exited 1 :=
  (C8_missing_required_env_is_fatal envEx "JWT_SECRET" (by decide)
    (by decide)).1

/-- Claim C9: logout is not idempotent.  A logout whose decoded jti is
already blacklisted is answered 500 (the unique index on jti rejects the
duplicate save) and leaves the blacklist unchanged; in particular after a
first successful logout, repeating the same request is answered 500 with
the state unchanged. -/
theorem C9_logout_not_idempotent
    (secret : String) (st : ServerState) (now now2 : Nat)
    (tok : SessionToken) (p : JwtPayload)
    (hv : jwtVerify tok secret now = some p) :
    (isBlacklisted st p.jti = true →
      logoutHandler secret st now (some tok) =
        { reply := ⟨500, "Failed to log out"⟩, st := st }) ∧
    (isBlacklisted st p.jti = false →
      jwtVerify tok secret now2 = some p →
      (logoutHandler secret st now (some tok)).reply.status = 200 ∧
      logoutHandler secret
          (logoutHandler secret st now (some tok)).st now2 (some tok) =
        { reply := ⟨500, "Failed to log out"⟩,
          st := (logoutHandler secret st now (some tok)).st }) := by
  constructor
  · intro hdup
    simp [logoutHandler, hv, hdup]
  · intro hfresh hv2
    set st1 := (logoutHandler secret st now (some tok)).st with hst1
    have hst : st1.blacklist = ⟨p.jti, now⟩ :: st.blacklist := by
      rw [hst1]
      simp [logoutHandler, hv, hfresh]
    have hdup2 : isBlacklisted st1 p.jti = true := by
      rw [isBlacklisted, hst]
      simp
    constructor
    · simp [logoutHandler, hv, hfresh]
    · simp [logoutHandler, hv2, hdup2]

/-- Witness for C9: a second logout of tokEx right after a first one. -/
theorem C9_witness :
    (logoutHandler secretEx stEx 5 (some tokEx)).reply.status = 200 ∧
    logoutHandler secretEx (logoutHandler secretEx stEx 5 (some tokEx)).st
        9 (some tokEx) =
      { reply := ⟨500, "Failed to log out"⟩,
        st := (logoutHandler secretEx stEx 5 (some tokEx)).st } :=
  (C9_logout_not_idempotent secretEx stEx 5 9 tokEx ⟨1, "jti-1"⟩
    (by decide)).2 (by decide) (by decide)

/-- Claim C10: for a user whose tokenExpiration is strictly in the future,
refreshSpotifyToken is a read-only no-op: it returns the stored
accessToken, leaves the user document unchanged, performs no save and
contacts no network, whatever the token endpoint would have answered. -/
theorem C10_refresh_noop_when_token_valid
    (user : User) (now e : Nat) (resp : SpotifyRefreshResponse)
    (hexp : user.tokenExpiration = some e) (hfut : now < e) :
    refreshSpotifyToken user now resp =
      { result := .ok user.accessToken, user := user,
        saved := false, networkCalled := false } := by
  unfold refreshSpotifyToken tokenStillValid
  rw [hexp]
  simp [hfut]

/-- Witness for C10: userEx's expiration 999999999999 is strictly after
now = 5, so the refresh returns acc-1 untouched. -/
theorem C10_witness :
    refreshSpotifyToken userEx 5 .requestError =
      { result := .ok (some "acc-1"), user := userEx,
        saved := false, networkCalled := false } :=
  C10_refresh_noop_when_token_valid userEx 5 999999999999 .requestError
    rfl (by decide)

end MoodiFi
